import Mathlib

/-!
Shallow embedding of the NWScript bytecode disassembler / decompiler
(`src/nwscript/disassembler.cpp` of xoreos-tools) and proofs about its
emission behaviour.

Modelling conventions:
  * The output sink (`Common::WriteStream`) is modelled by string
    concatenation: sequential `writeString` calls become `++`.
  * The external pure helper functions (formatters and name tables,
    declared in `src/nwscript/util.h` / `game.h` and consumed by the
    disassembler) are abstract: they are fields of a `Helpers` record
    and theorems quantify over them.
  * Object-graph pointers (instruction → block, block → subroutine,
    block → child blocks, branch targets) become indices into the
    arenas held by `NCSProgram`.  Pointer dereferences that the C++
    code performs unconditionally (which are valid by the model's
    invariants) are modelled with `getD` against an explicit default;
    `std::vector` subscripts that can actually go out of bounds are
    modelled with `get?` in the `Option` monad.
  * `size_t` arithmetic is modelled on `Nat` with an explicit
    `% 2 ^ 64` where underflow matters; `double`-based ceilings
    (`ceil(a / (double)b)`) are modelled by the exact integer ceiling,
    which coincides with the C++ value on every representable size.
-/

namespace NCSDis

/-! ## String formatting primitives (Common::UString / printf behaviour) -/

/-- A run of `n` spaces, `Common::UString(' ', n)`. -/
def spaces (n : Nat) : String :=
  String.mk (List.replicate n ' ')

/-- A run of `n` tab characters (`writeNSSIndent`). -/
def nssIndent (n : Nat) : String :=
  String.mk (List.replicate n '\t')

/-- printf `%<w>s`: right-justify, padding with spaces on the left;
strings of length `≥ w` are not touched. -/
def sprintfRightAlign (w : Nat) (s : String) : String :=
  if s.length < w then spaces (w - s.length) ++ s else s

/-- printf `%-<w>s`: left-justify, padding with spaces on the right;
strings of length `≥ w` are not touched. -/
def sprintfLeftAlign (w : Nat) (s : String) : String :=
  if s.length < w then s ++ spaces (w - s.length) else s

/-- Uppercase hexadecimal digit for a value `< 16`. -/
def hexDigitChar (n : Nat) : Char :=
  if n < 10 then Char.ofNat (48 + n) else Char.ofNat (55 + n)

/-- printf `%08X` on a `uint32` value: exactly eight uppercase hex
digits, zero padded (bits above the 32nd never occur in a `uint32`). -/
def sprintfHex8 (n : Nat) : String :=
  String.mk (((List.range 8).reverse).map fun i => hexDigitChar (n / 16 ^ i % 16))

/-- Lowercasing of `Common::UString::toLower`. -/
def strLower (s : String) : String :=
  String.mk (s.data.map Char.toLower)

/-- Comma-separated join: writes each element, with `", "` after every
element but the last (the loop shape used throughout the NSS writer). -/
def csvJoin : List String → String
  | [] => ""
  | x :: xs => x ++ String.join (xs.map (fun y => ", " ++ y))

/-- GraphViz label escaping from `quoteString`: `\` becomes `\\` and
`"` becomes `\"`; every other character is copied. -/
def quoteString (s : String) : String :=
  String.mk (s.data.foldl
    (fun acc c =>
      acc ++ (if c = '\\' then ['\\', '\\'] else if c = '"' then ['\\', '"'] else [c]))
    [])

/-! ## Data model (`NCSFile` object graph) -/

/-- Variable types (`kType...` of the analysis layer). -/
inductive VarType
  | Void | Int | Float | String | Object | Vector
  | EngineType (idx : Nat)
  deriving DecidableEq

/-- Opcodes that the NSS writer dispatches on; every other opcode is
`Other` (the `default:` arm emits nothing). -/
inductive Opcode
  | CONST | ACTION
  | CPDOWNBP | CPDOWNSP | CPTOPBP | CPTOPSP
  | LOGAND | LOGOR | EQ | LEQ | LT | GEQ | GT | NOT
  | RSADD | RETN
  | Other
  deriving DecidableEq

/-- Address classification of an instruction (`kAddressType...`). -/
inductive AddressType
  | NoneType | JumpLabel | Tail | StoreState | SubRoutine
  deriving DecidableEq

/-- Kinds of control-flow edges between blocks (`kBlockEdgeType...`). -/
inductive BlockEdgeType
  | Unconditional
  | ConditionalTrue
  | ConditionalFalse
  | SubRoutineCall
  | SubRoutineTail
  | SubRoutineStore
  | Dead
  deriving DecidableEq

/-- Kinds of control structure annotations (`kControlType...`). -/
inductive ControlType
  | NoneCtrl
  | DoWhileHead | DoWhileTail | DoWhileNext
  | WhileHead | WhileTail | WhileNext
  | Break | Continue
  | Return
  | IfCond | IfTrue | IfElse | IfNext
  deriving DecidableEq

/-- Subroutine kinds (`kSubRoutineType...`). -/
inductive SubRoutineType
  | NoneSub | Start | Global | StoreState | Normal
  deriving DecidableEq

/-- Stack-analysis progress of a subroutine (`kStackAnalyzeState...`). -/
inductive StackAnalyzeState
  | NotStarted | Running | Finished | Failed
  deriving DecidableEq

/-- A typed stack-slot variable inferred by the stack analysis.
`creatorAddress` is the address of the creating instruction, `none`
when `var.creator` is a null pointer; `siblings` holds the sibling
variable ids in the set's iteration order. -/
structure Variable where
  id : Nat
  type : VarType
  creatorAddress : Option Nat
  siblings : List Nat
  deriving DecidableEq

/-- One decoded instruction.  `branches` and `block` are indices into
the instruction / block arenas of the owning `NCSProgram`; `stack` and
`variables` carry the variables themselves. -/
structure Instruction where
  address : Nat
  opcode : Opcode
  args : List Int
  stack : List Variable
  vars : List Variable
  branches : List Nat
  follower : Option Nat
  addressType : AddressType
  block : Option Nat
  deriving DecidableEq

/-- A control-structure annotation on a block.  `retn` and `ifCond`
are dereferenced unconditionally by the writer, so they are plain
block indices; `ifTrue` / `ifElse` / `ifNext` are null-checked in the
source, so they are options. -/
structure ControlStructure where
  type : ControlType
  retn : Nat
  ifCond : Nat
  ifTrue : Option Nat
  ifElse : Option Nat
  ifNext : Option Nat
  deriving DecidableEq

/-- A basic block.  `children` holds block indices, parallel to
`childrenTypes`; `subRoutine` is the index of the owning subroutine
(`none` for a null pointer). -/
structure Block where
  address : Nat
  instructions : List Instruction
  children : List Nat
  childrenTypes : List BlockEdgeType
  subRoutine : Option Nat
  controls : List ControlStructure
  deriving DecidableEq

/-- A subroutine; `blocks` and `returns` hold block indices. -/
structure SubRoutine where
  address : Nat
  blocks : List Nat
  returns : List Nat
  type : SubRoutineType
  stackAnalyzeState : StackAnalyzeState
  deriving DecidableEq

/-- The read-only program model handed to the disassembler. -/
structure NCSProgram where
  size : Nat
  instructions : List Instruction
  blocks : List Block
  subRoutines : List SubRoutine
  globals : List Variable
  hasStackAnalysis : Bool

/-- Default instruction used to resolve arena references that the C++
code dereferences unconditionally. -/
def emptyInstruction : Instruction :=
  { address := 0, opcode := Opcode.Other, args := [], stack := [], vars := []
  , branches := [], follower := none, addressType := AddressType.NoneType, block := none }

/-- Default block used to resolve arena references. -/
def emptyBlock : Block :=
  { address := 0, instructions := [], children := [], childrenTypes := []
  , subRoutine := none, controls := [] }

/-- Default subroutine used to resolve arena references. -/
def emptySubRoutine : SubRoutine :=
  { address := 0, blocks := [], returns := [], type := SubRoutineType.NoneSub
  , stackAnalyzeState := StackAnalyzeState.NotStarted }

/-- The external pure helper functions of `src/nwscript/util.h` and
`src/nwscript/game.h`.  The game id is folded into the record, so the
`(..., game)` overloads and the game-less defaults are separate
fields. -/
structure Helpers where
  formatBytes : Instruction → String
  formatInstruction : Instruction → String
  formatInstructionData : Instruction → String
  formatJumpLabelNameInstr : Instruction → String
  formatJumpLabelNameBlock : Block → String
  formatJumpLabelNameSub : SubRoutine → String
  formatJumpDestination : Nat → String
  formatSignature : SubRoutine → String
  formatSignatureWithNames : SubRoutine → String
  formatVariableName : Variable → String
  getVariableTypeName : VarType → String
  getVariableTypeNameNoGame : VarType → String
  getFunctionName : Int → String
  getEngineTypeCount : Nat
  getEngineTypeName : Nat → String
  getGenericEngineTypeName : Nat → String

/-- Modelled from the spec: the helper `is_subroutine_call` of
`src/nwscript/blocks.h` is not part of the repository snapshot; per
the spec's helper contract table it is "True for `SubRoutineCall`". -/
def isSubRoutineCall (t : BlockEdgeType) : Bool :=
  t = BlockEdgeType.SubRoutineCall

/-! ## Header writer -/

/-- `Disassembler::writeInfo`: the size / instruction-count banner. -/
def writeInfo (p : NCSProgram) : String :=
  "; " ++ Nat.repr p.size ++ " bytes, " ++ Nat.repr p.instructions.length
    ++ " instructions\n\n"

/-- `Disassembler::writeEngineTypes`: the engine-type legend. -/
def writeEngineTypes (H : Helpers) : String :=
  if 0 < H.getEngineTypeCount then
    "; Engine types:\n" ++
    String.join ((List.range H.getEngineTypeCount).map fun i =>
      let name := H.getEngineTypeName i
      if name = "" then ""
      else "; " ++ H.getGenericEngineTypeName i ++ ": " ++ name ++ "\n") ++
    "\n"
  else ""

/-! ## Signature helper -/

/-- `Disassembler::getSignature(const SubRoutine &)`. -/
def getSignatureSub (p : NCSProgram) (H : Helpers) (sub : SubRoutine) : String :=
  if ¬p.hasStackAnalysis then ""
  else if sub.type = SubRoutineType.Start ∨ sub.type = SubRoutineType.Global ∨
          sub.type = SubRoutineType.StoreState then ""
  else if sub.stackAnalyzeState ≠ StackAnalyzeState.Finished then ""
  else H.formatSignature sub

/-- `Disassembler::getSignature(const Instruction &)`. -/
def getSignatureInstr (p : NCSProgram) (H : Helpers) (instr : Instruction) : String :=
  if ¬p.hasStackAnalysis then ""
  else if instr.addressType ≠ AddressType.SubRoutine then ""
  else
    match instr.block with
    | none => ""
    | some bIdx =>
      match (p.blocks.getD bIdx emptyBlock).subRoutine with
      | none => ""
      | some sIdx => getSignatureSub p H (p.subRoutines.getD sIdx emptySubRoutine)

/-! ## Jump labels and stack dumps -/

/-- `Disassembler::writeJumpLabel`. -/
def writeJumpLabel (p : NCSProgram) (H : Helpers) (instr : Instruction) : String :=
  let jumpLabel := H.formatJumpLabelNameInstr instr
  if jumpLabel = "" then ""
  else
    let signature := getSignatureInstr p H instr
    jumpLabel ++ ":" ++ (if signature = "" then "" else " ; " ++ signature) ++ "\n"

/-- Head line of `Disassembler::writeStack`:
`"; .--- Stack: %4s ---\n"` after the indent. -/
def writeStackHeader (instr : Instruction) (indent : Nat) : String :=
  spaces indent ++ "; .--- Stack: " ++
    sprintfRightAlign 4 (Nat.repr instr.stack.length) ++ " ---\n"

/-- One per-slot line of `Disassembler::writeStack`:
`"; | %4s - %6s: %-8s (%08X)%s\n"` after the indent. -/
def writeStackSlotLine (H : Helpers) (indent : Nat) (idx : Nat) (var : Variable) : String :=
  let siblings := String.intercalate "," (var.siblings.map Nat.repr)
  let siblings := if siblings = "" then "" else " (" ++ siblings ++ ")"
  spaces indent ++ "; | " ++
    sprintfRightAlign 4 (Nat.repr idx) ++ " - " ++
    sprintfRightAlign 6 (Nat.repr var.id) ++ ": " ++
    sprintfLeftAlign 8 (strLower (H.getVariableTypeName var.type)) ++ " (" ++
    sprintfHex8 (var.creatorAddress.getD 0) ++ ")" ++ siblings ++ "\n"

/-- Per-slot body of `Disassembler::writeStack`. -/
def writeStackBody (H : Helpers) (instr : Instruction) (indent : Nat) : String :=
  String.join (instr.stack.enum.map fun sv => writeStackSlotLine H indent sv.1 sv.2)

/-- Closing line of `Disassembler::writeStack`. -/
def writeStackFooter (indent : Nat) : String :=
  spaces indent ++ "; '--- ---------- ---\n"

/-- `Disassembler::writeStack`: the per-instruction stack dump. -/
def writeStack (H : Helpers) (instr : Instruction) (indent : Nat) : String :=
  writeStackHeader instr indent ++ writeStackBody H instr indent ++ writeStackFooter indent

/-! ## Listing and assembly writers -/

/-- The disassembly line of `createListing`: `"  %08X %-26s %s\n"`. -/
def listingLine (H : Helpers) (instr : Instruction) : String :=
  "  " ++ sprintfHex8 instr.address ++ " " ++
    sprintfLeftAlign 26 (H.formatBytes instr) ++ " " ++
    H.formatInstruction instr ++ "\n"

/-- Separator emitted by `createListing` after a follower-less instruction. -/
def listingSeparator : String :=
  "  -------- -------------------------- ---\n"

/-- Everything `createListing` emits for one instruction. -/
def listingPiece (p : NCSProgram) (H : Helpers) (printStack : Bool)
    (instr : Instruction) : String :=
  writeJumpLabel p H instr ++
  (if p.hasStackAnalysis && printStack then writeStack H instr 36 else "") ++
  listingLine H instr ++
  (if instr.follower.isNone then listingSeparator else "")

/-- `Disassembler::createListing`. -/
def createListing (p : NCSProgram) (H : Helpers) (printStack : Bool) : String :=
  writeInfo p ++ writeEngineTypes H ++
  String.join (p.instructions.map (listingPiece p H printStack))

/-- Everything `createAssembly` emits for one instruction. -/
def assemblyPiece (p : NCSProgram) (H : Helpers) (printStack : Bool)
    (instr : Instruction) : String :=
  writeJumpLabel p H instr ++
  (if p.hasStackAnalysis && printStack then writeStack H instr 0 else "") ++
  ("  " ++ H.formatInstruction instr ++ "\n") ++
  (if instr.follower.isNone then "\n" else "")

/-- `Disassembler::createAssembly`. -/
def createAssembly (p : NCSProgram) (H : Helpers) (printStack : Bool) : String :=
  writeInfo p ++ writeEngineTypes H ++
  String.join (p.instructions.map (assemblyPiece p H printStack))

/-! ## Dot writer -/

/-- `calculateNodesPerBlock`: `ceil(blockSize / (double)10)`, modelled
by the exact integer ceiling `(blockSize + 9) / 10`. -/
def calculateNodesPerBlock (blockSize : Nat) : Nat :=
  (blockSize + 9) / 10

/-- Tag string of one control-structure kind in `getBlockControl`
(the `default:` arm of the C++ switch is unreachable here because the
model's `ControlType` has exactly the enumerated kinds). -/
def controlTag : ControlType → String
  | ControlType.NoneCtrl => "<NONE>"
  | ControlType.DoWhileHead => "<DOWHILEHEAD>"
  | ControlType.DoWhileTail => "<DOWHILETAIL>"
  | ControlType.DoWhileNext => "<DOWHILENEXT>"
  | ControlType.WhileHead => "<WHILEHEAD>"
  | ControlType.WhileTail => "<WHILETAIL>"
  | ControlType.WhileNext => "<WHILENEXT>"
  | ControlType.Break => "<BREAK>"
  | ControlType.Continue => "<CONTINUE>"
  | ControlType.Return => "<RETURN>"
  | ControlType.IfCond => "<IFCOND>"
  | ControlType.IfTrue => "<IFTRUE>"
  | ControlType.IfElse => "<IFELSE>"
  | ControlType.IfNext => "<IFNEXT>"

/-- `getBlockControl`: one tag per control structure, each followed by
`\n` (the two-character GraphViz escape), plus a closing `\n` when any
tag was emitted. -/
def getBlockControl (block : Block) : String :=
  let control := String.join (block.controls.map fun c => controlTag c.type ++ "\\n")
  if control = "" then control else control ++ "\\n"

/-- Name of the `i`-th DOT node of a block: `b%08X_<i>`. -/
def dotNodeName (address i : Nat) : String :=
  "b" ++ sprintfHex8 address ++ "_" ++ Nat.repr i

/-- Label text of the `i`-th DOT node of a block: node 0 carries the
control prefix and the `<label>:\l` header, and every instruction `j`
contributes `"  <quoted mnemonic>\l"` to node `j / linesPerNode`. -/
def dotNodeLabel (H : Helpers) (printControlTypes : Bool) (b : Block) (i : Nat) : String :=
  let control := if printControlTypes then getBlockControl b else ""
  let head :=
    let l := H.formatJumpLabelNameBlock b
    if l = "" then H.formatJumpDestination (b.instructions.headD emptyInstruction).address
    else l
  (if i = 0 then control ++ (head ++ ":\\l") else "") ++
  String.join ((b.instructions.enum.filter
      (fun ji => ji.1 / ((b.instructions.length + calculateNodesPerBlock b.instructions.length - 1)
                          / calculateNodesPerBlock b.instructions.length) = i)).map
    (fun ji => "  " ++ quoteString (H.formatInstruction ji.2) ++ "\\l"))

/-- One emitted DOT node line of `writeDotBlocks`:
`    "<name>" [ shape="box" label="<label>" ]`. -/
def dotNodeLine (H : Helpers) (printControlTypes : Bool) (b : Block) (i : Nat) : String :=
  "    \"" ++ dotNodeName b.address i ++ "\" " ++
  "[ shape=\"box\" label=\"" ++ dotNodeLabel H printControlTypes b i ++ "\" ]\n"

/-- All node lines a single block contributes to the DOT output. -/
def dotBlockNodeLines (H : Helpers) (printControlTypes : Bool) (b : Block) : List String :=
  (List.range (calculateNodesPerBlock b.instructions.length)).map
    (dotNodeLine H printControlTypes b)

/-- The node part of a single block's DOT output. -/
def dotBlockNodes (H : Helpers) (printControlTypes : Bool) (b : Block) : String :=
  String.join (dotBlockNodeLines H printControlTypes b)

/-- The chain `    b<addr>_0 -> b<addr>_1 -> …` over the first `n`
sub-nodes of a block, built exactly like the C++ loop (`"    "` before
index 0, `" -> "` before every later index). -/
def dotSubdivisionChain (address : Nat) : Nat → String
  | 0 => ""
  | n + 1 =>
    dotSubdivisionChain address n ++
      ((if n = 0 then "    " else " -> ") ++ dotNodeName address n)

/-- Everything `writeDotBlocks` emits for a single block: the node
lines, then — only when the block was subdivided into more than one
node — the dotted subdivision edge. -/
def writeDotBlock (H : Helpers) (printControlTypes : Bool) (b : Block) : String :=
  dotBlockNodes H printControlTypes b ++
  (if 1 < calculateNodesPerBlock b.instructions.length then
    dotSubdivisionChain b.address (calculateNodesPerBlock b.instructions.length) ++
      " [ style=dotted ]\n"
  else "")

/-- `Disassembler::writeDotBlocks`: blocks in order, with a blank line
after every block except the last. -/
def writeDotBlocks (H : Helpers) (printControlTypes : Bool) (blocks : List Block) : String :=
  String.intercalate "\n" (blocks.map (writeDotBlock H printControlTypes))

/-- Cluster label selection of `writeDotClusteredBlocks`: signature,
else jump-label name, else formatted jump destination. -/
def dotClusterLabel (p : NCSProgram) (H : Helpers) (s : SubRoutine) : String :=
  let l := getSignatureSub p H s
  let l := if l = "" then H.formatJumpLabelNameSub s else l
  if l = "" then H.formatJumpDestination s.address else l

/-- `Disassembler::writeDotClusteredBlocks`: one `subgraph cluster_s…`
per subroutine, skipping subroutines whose first block is missing or
has no instructions. -/
def writeDotClusteredBlocks (p : NCSProgram) (H : Helpers) (printControlTypes : Bool) : String :=
  String.join (p.subRoutines.map fun s =>
    let blks := s.blocks.map fun i => p.blocks.getD i emptyBlock
    if blks.isEmpty || (blks.headD emptyBlock).instructions.isEmpty then ""
    else
      "  subgraph cluster_s" ++ sprintfHex8 s.address ++ " \x7b\n" ++
      "    style=filled\n" ++
      "    color=lightgrey\n" ++
      "    label=\"" ++ dotClusterLabel p H s ++ "\"\n\n" ++
      writeDotBlocks H printControlTypes blks ++
      "  \x7d\n\n")

/-- Edge colour switch of `writeDotBlockEdges` (the `default:` arm of
the C++ switch shares the `Unconditional` case). -/
def dotEdgeColor : BlockEdgeType → String
  | BlockEdgeType.Unconditional => "color=blue"
  | BlockEdgeType.ConditionalTrue => "color=green"
  | BlockEdgeType.ConditionalFalse => "color=red"
  | BlockEdgeType.SubRoutineCall => "color=cyan"
  | BlockEdgeType.SubRoutineTail => "color=orange"
  | BlockEdgeType.SubRoutineStore => "color=purple"
  | BlockEdgeType.Dead => "color=gray40"

/-- Index of the last sub-node of a block, `calculateNodesPerBlock(…) - 1`
computed on `size_t` (the subtraction wraps modulo `2 ^ 64`, which the
C++ hits when a block has zero instructions). -/
def dotLastNodeIndex (b : Block) : Nat :=
  (calculateNodesPerBlock b.instructions.length + (2 ^ 64 - 1)) % 2 ^ 64

/-- The full attribute string of one inter-block edge (colour, then
optionally ` style=bold` for a backward edge, then optionally
` constraint=false` for a cross-subroutine edge). -/
def dotEdgeAttr (b child : Block) (t : BlockEdgeType) : String :=
  dotEdgeColor t ++
  (if child.address < b.address then " style=bold" else "") ++
  (if b.subRoutine ≠ child.subRoutine then " constraint=false" else "")

/-- One emitted inter-block edge line of `writeDotBlockEdges`. -/
def dotEdgeLine (b child : Block) (t : BlockEdgeType) : String :=
  "  b" ++ sprintfHex8 b.address ++ "_" ++ Nat.repr (dotLastNodeIndex b) ++
  " -> b" ++ sprintfHex8 child.address ++ "_0" ++
  (" [ " ++ dotEdgeAttr b child t ++ " ]\n")

/-- `Disassembler::writeDotBlockEdges`: for every block, one edge per
`children` / `childrenTypes` entry (the two vectors are parallel by
the asserted model invariant, which `zip` realises). -/
def writeDotBlockEdges (p : NCSProgram) : String :=
  String.join (p.blocks.map fun b =>
    String.join ((b.children.zip b.childrenTypes).map fun ct =>
      dotEdgeLine b (p.blocks.getD ct.1 emptyBlock) ct.2))

/-- `Disassembler::createDot`. -/
def createDot (p : NCSProgram) (H : Helpers) (printControlTypes : Bool) : String :=
  "digraph \x7b\n" ++
  "  overlap=false\n" ++
  "  concentrate=true\n" ++
  "  splines=ortho\n\n" ++
  writeDotClusteredBlocks p H printControlTypes ++
  writeDotBlockEdges p ++
  "\x7d\n"

/-! ## NSS writer

The NSS writer indexes into `variables`, `args`, `branches`,
`children` and `blocks[0]` without bounds checks; those subscripts are
modelled in the `Option` monad (`none` is the out-of-bounds branch).
Recursion over the block graph, which the C++ performs on pointers,
is paid for with explicit fuel. -/

/-- Zero literal emitted for `RSADD` by variable type (objects and
engine types fall into the `default:` arm, which emits `0`). -/
def rsaddZeroLiteral : VarType → String
  | VarType.String => "\"\""
  | VarType.Int => "0"
  | VarType.Float => "0.0"
  | _ => "0"

/-- Shared shape of the comparison / logical opcode arms of
`writeNSSInstruction`: `<type(r)> <name(r)> = <name(v0)> <op> <name(v1)>;`
with `r = variables[2]`. -/
def nssBinaryLine (H : Helpers) (instr : Instruction) (indent : Nat) (op : String) :
    Option String := do
  let v1 ← instr.vars.get? 0
  let v2 ← instr.vars.get? 1
  let result ← instr.vars.get? 2
  pure (nssIndent indent ++ H.getVariableTypeName result.type ++ " " ++
        H.formatVariableName result ++ " = " ++
        H.formatVariableName v1 ++ " " ++ op ++ " " ++ H.formatVariableName v2 ++ ";\n")

/-- `Disassembler::writeNSSInstruction`: opcode-directed rendering of
one instruction (opcodes outside the switch emit nothing). -/
def writeNSSInstruction (H : Helpers) (instr : Instruction) (indent : Nat) : Option String :=
  match instr.opcode with
  | Opcode.CONST => do
      let v ← instr.vars.get? 0
      pure (nssIndent indent ++ H.getVariableTypeNameNoGame v.type ++ " " ++
            H.formatVariableName v ++ " = " ++ H.formatInstructionData instr ++ ";\n")
  | Opcode.ACTION => do
      let a1 ← instr.args.get? 1
      -- `unsigned int paramCount = instruction->args[1]`
      let paramCount := (a1 % (2 ^ 32 : Int)).toNat
      let retPart ←
        if paramCount < instr.vars.length then
          (instr.vars.getLast?).map fun ret =>
            H.getVariableTypeName ret.type ++ " " ++ H.formatVariableName ret ++ " = "
        else pure ""
      let a0 ← instr.args.get? 0
      let names ← (List.range paramCount).mapM fun i =>
        (instr.vars.get? i).map H.formatVariableName
      pure (nssIndent indent ++ retPart ++ H.getFunctionName a0 ++ "(" ++
            csvJoin names ++ ");\n")
  | Opcode.CPDOWNBP | Opcode.CPDOWNSP | Opcode.CPTOPBP | Opcode.CPTOPSP => do
      let v1 ← instr.vars.get? 0
      let v2 ← instr.vars.get? 1
      pure (nssIndent indent ++ H.getVariableTypeName v2.type ++ " " ++
            H.formatVariableName v2 ++ " = " ++ H.formatVariableName v1 ++ ";\n")
  | Opcode.LOGAND => nssBinaryLine H instr indent "&&"
  | Opcode.LOGOR => nssBinaryLine H instr indent "||"
  | Opcode.EQ => nssBinaryLine H instr indent "=="
  | Opcode.LEQ => nssBinaryLine H instr indent "<="
  | Opcode.LT => nssBinaryLine H instr indent "<"
  | Opcode.GEQ => nssBinaryLine H instr indent ">="
  | Opcode.GT => nssBinaryLine H instr indent ">"
  | Opcode.NOT => do
      let v ← instr.vars.get? 0
      let result ← instr.vars.get? 2
      pure (nssIndent indent ++ H.getVariableTypeName result.type ++ " " ++
            H.formatVariableName result ++ " = " ++ "!" ++
            H.formatVariableName v ++ ";\n")
  | Opcode.RSADD => do
      let v ← instr.vars.get? 0
      pure (nssIndent indent ++ H.getVariableTypeName v.type ++ " " ++
            H.formatVariableName v ++ " = " ++ rsaddZeroLiteral v.type ++ ";\n")
  | _ => pure ""

/-- The subroutine-call arm of `writeNSSBlock`: reads the block's last
instruction, its `branches[0]` (dereferenced against the instruction
arena) and the block's `children[1]`, and produces the emitted call
line together with the index of the fall-through block the writer
recurses into. -/
def nssCallPart (p : NCSProgram) (H : Helpers) (b : Block) (indent : Nat) :
    Option (String × Nat) := do
  let instruction ← b.instructions.getLast?
  let branchIdx ← instruction.branches.get? 0
  let callee := p.instructions.getD branchIdx emptyInstruction
  let childIdx ← b.children.get? 1
  pure (nssIndent indent ++ H.formatJumpLabelNameInstr callee ++ "(" ++
        csvJoin (instruction.vars.map H.formatVariableName) ++ ");\n",
        childIdx)

/-- The `Return` control arm of `writeNSSBlock`, applied to the
referenced return block `retn`: `return;` when `retn` has no
instructions or the last instruction's stack is empty, otherwise
`return <name of retn.instructions[0].variables[0]>;`. -/
def nssReturnPart (H : Helpers) (retn : Block) (indent : Nat) : Option String :=
  match retn.instructions.getLast? with
  | none => some (nssIndent indent ++ "return;\n")
  | some lastInstr =>
    if lastInstr.stack.length = 0 then
      some (nssIndent indent ++ "return;\n")
    else do
      let first ← retn.instructions.get? 0
      let v ← first.vars.get? 0
      pure (nssIndent indent ++ "return " ++ H.formatVariableName v ++ ";\n")

/-- `Disassembler::writeNSSBlock` (with `writeNSSIfBlock` inlined at
its single call site): instruction lines, then the subroutine-call
loop over `childrenTypes`, then the control-structure loop. -/
def writeNSSBlock (p : NCSProgram) (H : Helpers) : Nat → Nat → Nat → Option String
  | 0, _, _ => none
  | fuel + 1, blockIdx, indent => do
    let b := p.blocks.getD blockIdx emptyBlock
    let instrParts ← b.instructions.mapM fun ins => writeNSSInstruction H ins indent
    let callParts ← b.childrenTypes.mapM fun childType =>
      if isSubRoutineCall childType then do
        let lineChild ← nssCallPart p H b indent
        let afterCall ← writeNSSBlock p H fuel lineChild.2 indent
        pure (lineChild.1 ++ afterCall)
      else pure ""
    let controlParts ← b.controls.mapM fun control =>
      if control.type = ControlType.Return then
        nssReturnPart H (p.blocks.getD control.retn emptyBlock) indent
      else if control.type = ControlType.IfCond then do
        let condBlock := p.blocks.getD control.ifCond emptyBlock
        let lastInstr ← condBlock.instructions.getLast?
        let cond ← lastInstr.vars.get? 0
        let truePart ← match control.ifTrue with
          | some t => writeNSSBlock p H fuel t (indent + 1)
          | none => pure ""
        let elsePart ← match control.ifElse with
          | some e => do
              let s ← writeNSSBlock p H fuel e (indent + 1)
              pure (" else \x7b\n" ++ s ++ nssIndent indent ++ "\x7d")
          | none => pure ""
        let nextPart ← match control.ifNext with
          | some nx => writeNSSBlock p H fuel nx indent
          | none => pure ""
        pure (nssIndent indent ++ "if (" ++ H.formatVariableName cond ++ ") \x7b\n" ++
              truePart ++ nssIndent indent ++ "\x7d" ++ elsePart ++ "\n" ++ nextPart)
      else pure ""
    pure (String.join instrParts ++ String.join callParts ++ String.join controlParts)

/-- `Disassembler::writeNSSSubRoutine`: signature header, the body of
`blocks[0]` at indent 1, closing brace. -/
def writeNSSSubRoutine (p : NCSProgram) (H : Helpers) (fuel : Nat) (s : SubRoutine) :
    Option String := do
  let firstBlock ← s.blocks.get? 0
  let body ← writeNSSBlock p H fuel firstBlock 1
  pure ("\n\n" ++ H.formatSignatureWithNames s ++ " \x7b\n" ++ body ++ "\x7d")

/-- `Disassembler::createNSS`: banner, globals, then one
reconstruction per subroutine. -/
def createNSS (p : NCSProgram) (H : Helpers) (fuel : Nat) : Option String := do
  let subParts ← p.subRoutines.mapM (writeNSSSubRoutine p H fuel)
  pure ("// Decompiled using ncsdis" ++ "\n\n" ++
        String.join (p.globals.map fun g =>
          H.getVariableTypeName g.type ++ " " ++ H.formatVariableName g ++
          Nat.repr g.id ++ "\n") ++
        String.join subParts)

/-- Running an emitter on a sink: the sink receives the emitted bytes
after its existing content (`WriteStream::writeString` appends). -/
def runOnSink (sink output : String) : String := sink ++ output

/-- Running `createNSS` on a sink (no bytes are modelled for the
out-of-fuel / out-of-bounds branch). -/
def runNSSOnSink (sink : String) (p : NCSProgram) (H : Helpers) (fuel : Nat) : String :=
  match createNSS p H fuel with
  | some w => sink ++ w
  | none => sink

/-- Helper instance whose formatters all return the empty string; the
concrete programs used in witnesses override individual fields. -/
def hTrivial : Helpers :=
  { formatBytes := fun _ => ""
  , formatInstruction := fun _ => ""
  , formatInstructionData := fun _ => ""
  , formatJumpLabelNameInstr := fun _ => ""
  , formatJumpLabelNameBlock := fun _ => ""
  , formatJumpLabelNameSub := fun _ => ""
  , formatJumpDestination := fun _ => ""
  , formatSignature := fun _ => ""
  , formatSignatureWithNames := fun _ => ""
  , formatVariableName := fun _ => ""
  , getVariableTypeName := fun _ => ""
  , getVariableTypeNameNoGame := fun _ => ""
  , getFunctionName := fun _ => ""
  , getEngineTypeCount := 0
  , getEngineTypeName := fun _ => ""
  , getGenericEngineTypeName := fun _ => "" }

/-! ## Concrete objects used by witnesses and counterexamples -/

/-- A lone `RETN` instruction at address 0 with no follower. -/
def retnInstruction : Instruction :=
  { emptyInstruction with opcode := Opcode.RETN }

/-- The program of the spec's scenario E1: one byte, one `RETN`
instruction, no analysis results. -/
def retnProgram : NCSProgram :=
  { size := 1, instructions := [retnInstruction], blocks := [], subRoutines := []
  , globals := [], hasStackAnalysis := false }

/-- Helpers rendering `retnInstruction` as `RETN` with no engine types
and no jump label. -/
def retnHelpers : Helpers := { hTrivial with formatInstruction := fun _ => "RETN" }

/-- A block of 25 (empty) instructions at address `0x100`: subdivided
into three DOT nodes. -/
def block25 : Block :=
  { emptyBlock with
      address := 256
      instructions := List.replicate 25 emptyInstruction }

/-- A one-instruction block at address 0. -/
def block1 : Block :=
  { emptyBlock with instructions := [emptyInstruction] }

/-- A stack variable used by the stack-dump counterexample. -/
def sampleVariable : Variable :=
  { id := 3, type := VarType.Int, creatorAddress := some 16, siblings := [] }

/-- An instruction whose analysed stack has exactly one slot. -/
def stackInstruction : Instruction :=
  { emptyInstruction with stack := [sampleVariable] }

/-- Helpers rendering bytes as `1E` and the mnemonic as `RETN`, for
the listing-line counterexample. -/
def bytesHelpers : Helpers :=
  { hTrivial with formatBytes := fun _ => "1E", formatInstruction := fun _ => "RETN" }

/-- Helpers naming every variable `v3`, for the return-statement
witness. -/
def nameHelpers : Helpers := { hTrivial with formatVariableName := fun _ => "v3" }

/-- A return block whose single instruction produced variable
`sampleVariable` and ends with a non-empty stack. -/
def returnBlock : Block :=
  { emptyBlock with
      instructions := [{ emptyInstruction with
                           stack := [sampleVariable], vars := [sampleVariable] }] }

/-- Source block of the edge witness: address 16, subroutine 0. -/
def edgeSourceBlock : Block :=
  { emptyBlock with
      address := 16
      instructions := [emptyInstruction]
      subRoutine := some 0 }

/-- Destination block of the edge witness: lower address, same
subroutine. -/
def edgeTargetBlock : Block :=
  { emptyBlock with address := 8, subRoutine := some 0 }

/-! ## Spec-side rendering used for comparison -/

/-- The edge-kind → colour table exactly as the specification states
it (§4.5.3); the claim compares the code's switch against this
table. -/
def specEdgeColorTable : BlockEdgeType → String
  | BlockEdgeType.Unconditional => "color=blue"
  | BlockEdgeType.ConditionalTrue => "color=green"
  | BlockEdgeType.ConditionalFalse => "color=red"
  | BlockEdgeType.SubRoutineCall => "color=cyan"
  | BlockEdgeType.SubRoutineTail => "color=orange"
  | BlockEdgeType.SubRoutineStore => "color=purple"
  | BlockEdgeType.Dead => "color=gray40"

/-! ## Auxiliary lemmas -/

/-- A `get?` succeeds exactly on indices below the length. -/
theorem get?_isSome_iff {α : Type} (l : List α) (n : Nat) :
    (l.get? n).isSome ↔ n < l.length := by
  rcases h : l.get? n with _ | v
  · rw [List.get?_eq_none] at h
    simp [Option.isSome]
    omega
  · obtain ⟨hlt, _⟩ := List.get?_eq_some.mp h
    simp [Option.isSome]
    omega

/-! ## Claim theorems -/

/-- C1: for every block `B` with `k ≥ 1` instructions, `createDot`
(through `writeDotBlock`, whose node part joins exactly the lines of
`dotBlockNodeLines`) emits exactly `N = ⌈k / 10⌉ = (k + 9) / 10` DOT
nodes for `B` (at least one); in particular a block with exactly 10
instructions yields 1 node, 11 yields 2, 20 yields 2, and 21 yields
3. -/
theorem dot_node_count (H : Helpers) (pct : Bool) (b : Block)
    (hk : 1 ≤ b.instructions.length) :
    (dotBlockNodeLines H pct b).length = (b.instructions.length + 9) / 10 ∧
    1 ≤ (dotBlockNodeLines H pct b).length ∧
    (b.instructions.length = 10 → (dotBlockNodeLines H pct b).length = 1) ∧
    (b.instructions.length = 11 → (dotBlockNodeLines H pct b).length = 2) ∧
    (b.instructions.length = 20 → (dotBlockNodeLines H pct b).length = 2) ∧
    (b.instructions.length = 21 → (dotBlockNodeLines H pct b).length = 3) := by
  have h : (dotBlockNodeLines H pct b).length = (b.instructions.length + 9) / 10 := by
    simp [dotBlockNodeLines, calculateNodesPerBlock]
  refine ⟨h, by omega, ?_, ?_, ?_, ?_⟩ <;> (intro e; rw [h, e])

/-- C1 witness: the one-instruction block `block1` satisfies the
hypothesis and yields a single node line. -/
theorem dot_node_count_witness :
    1 ≤ block1.instructions.length ∧
    (dotBlockNodeLines hTrivial false block1).length =
      (block1.instructions.length + 9) / 10 :=
  ⟨by decide, (dot_node_count hTrivial false block1 (by decide)).1⟩

/-- C2: every inter-block DOT edge carries the colour of the
spec's edge-kind table, with ` style=bold` appended for a backward
edge and ` constraint=false` appended for a cross-subroutine edge;
the emitted line wraps the attributes in `" [ "` … `" ]\n"`, and a
`ConditionalFalse` successor at a lower address in the same
subroutine yields exactly `[ color=red style=bold ]`. -/
theorem dot_edge_attr_correct (b child : Block) (t : BlockEdgeType) :
    (dotEdgeLine b child t =
      "  b" ++ sprintfHex8 b.address ++ "_" ++ Nat.repr (dotLastNodeIndex b) ++
      " -> b" ++ sprintfHex8 child.address ++ "_0" ++
      (" [ " ++ dotEdgeAttr b child t ++ " ]\n")) ∧
    (dotEdgeAttr b child t =
      specEdgeColorTable t ++
      (if child.address < b.address then " style=bold" else "") ++
      (if b.subRoutine ≠ child.subRoutine then " constraint=false" else "")) ∧
    (t = BlockEdgeType.ConditionalFalse → child.address < b.address →
      b.subRoutine = child.subRoutine →
      " [ " ++ dotEdgeAttr b child t ++ " ]\n" = " [ color=red style=bold ]\n") := by
  refine ⟨rfl, ?_, ?_⟩
  · cases t <;> rfl
  · intro ht hlt hsub
    subst ht
    simp only [dotEdgeAttr, dotEdgeColor, if_pos hlt, hsub, ne_eq, not_true_eq_false,
      if_false]
    rfl

/-- C2 witness: the `ConditionalFalse` edge from `edgeSourceBlock`
(address 16) down to `edgeTargetBlock` (address 8) in the same
subroutine renders as `[ color=red style=bold ]`. -/
theorem dot_edge_attr_correct_witness :
    " [ " ++ dotEdgeAttr edgeSourceBlock edgeTargetBlock BlockEdgeType.ConditionalFalse ++
      " ]\n" = " [ color=red style=bold ]\n" :=
  (dot_edge_attr_correct edgeSourceBlock edgeTargetBlock
      BlockEdgeType.ConditionalFalse).2.2 rfl (by decide) (by decide)

/-- C3: for a `Return` control structure the NSS writer emits
`return;` when the referenced return block has no instructions or the
last instruction's stack is empty, and otherwise emits
`return <name of retn.instructions[0].variables[0]>;` (provided that
first instruction has a first variable — the C++ reads it without a
bounds check). -/
theorem nss_return_render (H : Helpers) (retn : Block) (indent : Nat) :
    (retn.instructions = [] →
      nssReturnPart H retn indent = some (nssIndent indent ++ "return;\n")) ∧
    (∀ lastInstr, retn.instructions.getLast? = some lastInstr → lastInstr.stack = [] →
      nssReturnPart H retn indent = some (nssIndent indent ++ "return;\n")) ∧
    (∀ lastInstr first v, retn.instructions.getLast? = some lastInstr →
      lastInstr.stack ≠ [] →
      retn.instructions.get? 0 = some first → first.vars.get? 0 = some v →
      nssReturnPart H retn indent =
        some (nssIndent indent ++ "return " ++ H.formatVariableName v ++ ";\n")) := by
  refine ⟨?_, ?_, ?_⟩
  · intro h
    simp [nssReturnPart, h]
  · intro lastInstr h hs
    simp [nssReturnPart, h, hs]
  · intro lastInstr first v h hs h0 hv
    have hlen : lastInstr.stack.length ≠ 0 := by
      simpa [List.length_eq_zero] using hs
    simp only [List.get?_eq_getElem?] at h0 hv
    simp [nssReturnPart, h, hlen, h0, hv]

/-- C3 witness: `returnBlock` has one instruction with a non-empty
stack; its first variable is rendered, giving `\treturn v3;\n`. -/
theorem nss_return_render_witness :
    nssReturnPart nameHelpers returnBlock 1 =
      some (nssIndent 1 ++ "return " ++
        nameHelpers.formatVariableName sampleVariable ++ ";\n") :=
  (nss_return_render nameHelpers returnBlock 1).2.2
    { emptyInstruction with stack := [sampleVariable], vars := [sampleVariable] }
    { emptyInstruction with stack := [sampleVariable], vars := [sampleVariable] }
    sampleVariable (by decide) (by decide) (by decide) (by decide)

/-- C4: for a program of size 1 whose only instruction is a `RETN` at
address 0 with no follower and no jump label, and helpers with zero
engine types, `createAssembly` with `printStack = false` emits exactly
the banner, a blank line, the mnemonic indented by two spaces, and a
blank separator line. -/
theorem assembly_retn_scenario (p : NCSProgram) (H : Helpers) (i : Instruction)
    (hsize : p.size = 1) (hinstr : p.instructions = [i])
    (heng : H.getEngineTypeCount = 0)
    (hlabel : H.formatJumpLabelNameInstr i = "")
    (hmnem : H.formatInstruction i = "RETN")
    (hfoll : i.follower = none) :
    createAssembly p H false = "; 1 bytes, 1 instructions\n\n  RETN\n\n" := by
  simp only [createAssembly, writeInfo, writeEngineTypes, hsize, hinstr, heng,
    assemblyPiece, writeJumpLabel, hlabel, hmnem, hfoll, Bool.and_false,
    lt_irrefl, if_false, Bool.false_eq_true, Option.isNone_none, if_true,
    List.map_cons, List.map_nil, List.length_cons, List.length_nil,
    String.join, List.foldl]
  rfl

/-- C4 witness: the concrete program `retnProgram` with `retnHelpers`
produces exactly the expected byte string. -/
theorem assembly_retn_scenario_witness :
    createAssembly retnProgram retnHelpers false =
      "; 1 bytes, 1 instructions\n\n  RETN\n\n" :=
  assembly_retn_scenario retnProgram retnHelpers retnInstruction
    rfl rfl rfl rfl rfl rfl

/-- C5 counterexample: the claim says the raw-bytes column is
left-padded (spaces before the bytes) to width 26; at a concrete
instruction whose bytes render as `1E`, the line `createListing`
writes is not of that shape — the C++ format is `%-26s`, which
left-justifies. -/
theorem listing_line_pad_counterexample :
    listingLine bytesHelpers retnInstruction ≠
      "  " ++ sprintfHex8 retnInstruction.address ++ " " ++
        (spaces (26 - (bytesHelpers.formatBytes retnInstruction).length) ++
          bytesHelpers.formatBytes retnInstruction) ++ " " ++
        bytesHelpers.formatInstruction retnInstruction ++ "\n" := by
  decide

/-- C5 (amended): the disassembly line written by `createListing` is
two spaces, the address as zero-padded 8-digit uppercase hex, a
space, the raw-bytes string *right-padded* (left-justified) with
spaces to width 26, a space, the mnemonic, and a newline. -/
theorem listing_line_format (H : Helpers) (i : Instruction)
    (hle : (H.formatBytes i).length ≤ 26) :
    listingLine H i =
      "  " ++ sprintfHex8 i.address ++ " " ++
        (H.formatBytes i ++ spaces (26 - (H.formatBytes i).length)) ++ " " ++
        H.formatInstruction i ++ "\n" := by
  unfold listingLine sprintfLeftAlign
  rcases Nat.lt_or_ge (H.formatBytes i).length 26 with h | h
  · rw [if_pos h]
  · have h26 : (H.formatBytes i).length = 26 := le_antisymm hle h
    rw [if_neg (by omega), h26]
    simp [spaces]

/-- C5 witness: the amended format at the concrete `1E` / `RETN`
instruction. -/
theorem listing_line_format_witness :
    (bytesHelpers.formatBytes retnInstruction).length ≤ 26 ∧
    listingLine bytesHelpers retnInstruction =
      "  " ++ sprintfHex8 retnInstruction.address ++ " " ++
        (bytesHelpers.formatBytes retnInstruction ++
          spaces (26 - (bytesHelpers.formatBytes retnInstruction).length)) ++ " " ++
        bytesHelpers.formatInstruction retnInstruction ++ "\n" :=
  ⟨by decide, listing_line_format bytesHelpers retnInstruction (by decide)⟩

/-- C6 counterexample: the claim says the head line of the stack dump
renders the depth right-padded (spaces after the digits) to width 4;
at a concrete instruction of stack depth 1, the head line
`writeStackHeader` (the first component of `writeStack`) is not of
that shape — the C++ format is `%4s`, which right-justifies. -/
theorem stack_header_pad_counterexample :
    writeStackHeader stackInstruction 0 ≠
      spaces 0 ++ "; .--- Stack: " ++
        (Nat.repr stackInstruction.stack.length ++
          spaces (4 - (Nat.repr stackInstruction.stack.length).length)) ++ " ---\n" := by
  decide

/-- C6 (amended): for every instruction whose stack has depth `d`,
the stack dump's first line renders `d` *left-padded* (padding spaces
before the digits) to field width 4, in the shape
`; .--- Stack: <d left-padded width 4> ---`, and `writeStack` emits
that line first. -/
theorem stack_header_format (H : Helpers) (instr : Instruction) (indent : Nat)
    (hle : (Nat.repr instr.stack.length).length ≤ 4) :
    writeStackHeader instr indent =
      spaces indent ++ "; .--- Stack: " ++
        (spaces (4 - (Nat.repr instr.stack.length).length) ++
          Nat.repr instr.stack.length) ++ " ---\n" ∧
    writeStack H instr indent =
      writeStackHeader instr indent ++ writeStackBody H instr indent ++
        writeStackFooter indent := by
  refine ⟨?_, rfl⟩
  unfold writeStackHeader sprintfRightAlign
  rcases Nat.lt_or_ge (Nat.repr instr.stack.length).length 4 with h | h
  · rw [if_pos h]
  · have h4 : (Nat.repr instr.stack.length).length = 4 := le_antisymm hle h
    rw [if_neg (by omega), h4]
    simp [spaces]

/-- C6 witness: the amended head-line format at the concrete
depth-one instruction. -/
theorem stack_header_format_witness :
    (Nat.repr stackInstruction.stack.length).length ≤ 4 ∧
    writeStackHeader stackInstruction 0 =
      spaces 0 ++ "; .--- Stack: " ++
        (spaces (4 - (Nat.repr stackInstruction.stack.length).length) ++
          Nat.repr stackInstruction.stack.length) ++ " ---\n" :=
  ⟨by decide, (stack_header_format hTrivial stackInstruction 0 (by decide)).1⟩

/-- C7: when the program has no stack analysis, neither
`createListing` nor `createAssembly` ever emits a stack dump — the
per-instruction emission is exactly label, line and separator, and
the whole output is independent of `printStack` — and the signature
helper returns the empty string for every subroutine and every
instruction. -/
theorem no_stack_analysis_quiet (p : NCSProgram) (H : Helpers)
    (h : p.hasStackAnalysis = false) :
    (∀ ps i, listingPiece p H ps i =
        writeJumpLabel p H i ++ (listingLine H i ++
          (if i.follower.isNone then listingSeparator else ""))) ∧
    (∀ ps i, assemblyPiece p H ps i =
        writeJumpLabel p H i ++ (("  " ++ H.formatInstruction i ++ "\n") ++
          (if i.follower.isNone then "\n" else ""))) ∧
    (∀ ps, createListing p H ps = createListing p H false) ∧
    (∀ ps, createAssembly p H ps = createAssembly p H false) ∧
    (∀ s, getSignatureSub p H s = "") ∧
    (∀ i, getSignatureInstr p H i = "") := by
  have hl : ∀ ps i, listingPiece p H ps i =
      writeJumpLabel p H i ++ (listingLine H i ++
        (if i.follower.isNone then listingSeparator else "")) := by
    intro ps i
    simp [listingPiece, h, String.append_assoc]
  have ha : ∀ ps i, assemblyPiece p H ps i =
      writeJumpLabel p H i ++ (("  " ++ H.formatInstruction i ++ "\n") ++
        (if i.follower.isNone then "\n" else "")) := by
    intro ps i
    simp [assemblyPiece, h, String.append_assoc]
  refine ⟨hl, ha, ?_, ?_, ?_, ?_⟩
  · intro ps
    have hm : p.instructions.map (listingPiece p H ps) =
        p.instructions.map (listingPiece p H false) :=
      List.map_congr_left fun i _ => by rw [hl ps i, hl false i]
    rw [createListing, createListing, hm]
  · intro ps
    have hm : p.instructions.map (assemblyPiece p H ps) =
        p.instructions.map (assemblyPiece p H false) :=
      List.map_congr_left fun i _ => by rw [ha ps i, ha false i]
    rw [createAssembly, createAssembly, hm]
  · intro s
    simp [getSignatureSub, h]
  · intro i
    simp [getSignatureInstr, h]

/-- C7 witness: on the concrete analysis-less `retnProgram`, the
listing output is independent of `printStack` and the signature of
any subroutine is empty. -/
theorem no_stack_analysis_quiet_witness :
    createListing retnProgram retnHelpers true =
      createListing retnProgram retnHelpers false ∧
    getSignatureSub retnProgram retnHelpers emptySubRoutine = "" :=
  ⟨(no_stack_analysis_quiet retnProgram retnHelpers rfl).2.2.1 true,
   (no_stack_analysis_quiet retnProgram retnHelpers rfl).2.2.2.2.1 emptySubRoutine⟩

/-- Unfolding of the subdivision chain at a length of at least two:
the last node name is appended after a `" -> "`. -/
theorem dotSubdivisionChain_succ_succ (address m : Nat) :
    dotSubdivisionChain address (m + 2) =
      dotSubdivisionChain address (m + 1) ++ (" -> " ++ dotNodeName address (m + 1)) := by
  rw [dotSubdivisionChain]
  rw [if_neg (Nat.succ_ne_zero m)]

/-- C8: `writeDotBlock` (hence `createDot`) emits the dotted
subdivision edge if and only if the block's node count is greater
than one: with a single node (or none) the output is exactly the node
lines, and with more than one node the output appends a chain
containing `" -> "` terminated by `" [ style=dotted ]\n"`. -/
theorem dot_subdivision_edge_iff (H : Helpers) (pct : Bool) (b : Block) :
    (calculateNodesPerBlock b.instructions.length ≤ 1 →
      writeDotBlock H pct b = dotBlockNodes H pct b) ∧
    (1 < calculateNodesPerBlock b.instructions.length →
      ∃ s t : String,
        writeDotBlock H pct b =
          dotBlockNodes H pct b ++ (s ++ " -> " ++ t ++ " [ style=dotted ]\n")) := by
  constructor
  · intro h
    unfold writeDotBlock
    rw [if_neg (by omega)]
    exact String.append_empty _
  · intro h
    obtain ⟨m, hm⟩ : ∃ m, calculateNodesPerBlock b.instructions.length = m + 2 :=
      ⟨calculateNodesPerBlock b.instructions.length - 2, by omega⟩
    refine ⟨dotSubdivisionChain b.address (m + 1), dotNodeName b.address (m + 1), ?_⟩
    unfold writeDotBlock
    rw [if_pos h]
    congr 1
    rw [hm, dotSubdivisionChain_succ_succ]
    simp [String.append_assoc]

/-- C8 witness: the 25-instruction block is subdivided (3 nodes), so
its output carries a `" -> "` chain before `" [ style=dotted ]\n"`. -/
theorem dot_subdivision_edge_iff_witness :
    1 < calculateNodesPerBlock block25.instructions.length ∧
    ∃ s t : String,
      writeDotBlock hTrivial false block25 =
        dotBlockNodes hTrivial false block25 ++
          (s ++ " -> " ++ t ++ " [ style=dotted ]\n") :=
  ⟨by decide, (dot_subdivision_edge_iff hTrivial false block25).2 (by decide)⟩

/-- C9: every Emitter entry point is deterministic — running the same
operation on the same program with the same flags writes the same
byte stream `w` to any two sinks (each sink only gains `w` after its
prior content). -/
theorem emitter_deterministic (p : NCSProgram) (H : Helpers) (ps pct : Bool)
    (fuel : Nat) (sink1 sink2 : String) :
    (∃ w, runOnSink sink1 (createListing p H ps) = sink1 ++ w ∧
          runOnSink sink2 (createListing p H ps) = sink2 ++ w) ∧
    (∃ w, runOnSink sink1 (createAssembly p H ps) = sink1 ++ w ∧
          runOnSink sink2 (createAssembly p H ps) = sink2 ++ w) ∧
    (∃ w, runOnSink sink1 (createDot p H pct) = sink1 ++ w ∧
          runOnSink sink2 (createDot p H pct) = sink2 ++ w) ∧
    (∃ w, runNSSOnSink sink1 p H fuel = sink1 ++ w ∧
          runNSSOnSink sink2 p H fuel = sink2 ++ w) := by
  refine ⟨⟨_, rfl, rfl⟩, ⟨_, rfl, rfl⟩, ⟨_, rfl, rfl⟩, ?_⟩
  unfold runNSSOnSink
  cases h : createNSS p H fuel
  · exact ⟨"", by rw [String.append_empty], by rw [String.append_empty]⟩
  · exact ⟨_, rfl, rfl⟩

/-- C10: the subroutine-call arm of the NSS block writer reads the
block's last instruction, that instruction's `branches[0]`, and the
block's `children[1]`; all three accesses are in range (the `none`
branch of the embedding is not taken) exactly when the block has at
least one instruction, its last instruction has at least one branch
target, and the block has at least two children. -/
theorem nss_call_accesses_iff (p : NCSProgram) (H : Helpers) (b : Block) (indent : Nat) :
    (nssCallPart p H b indent).isSome ↔
      (b.instructions ≠ [] ∧
       (∀ lastInstr, b.instructions.getLast? = some lastInstr →
          lastInstr.branches ≠ []) ∧
       2 ≤ b.children.length) := by
  rcases hL : b.instructions.getLast? with _ | li
  · rw [List.getLast?_eq_none_iff] at hL
    constructor
    · intro hs
      exfalso
      simp [nssCallPart, hL] at hs
    · rintro ⟨hne, _, _⟩
      exact absurd hL hne
  · have hne : b.instructions ≠ [] := by
      intro he
      rw [he] at hL
      simp at hL
    rcases hB : li.branches.get? 0 with _ | bi
    · have hBe : li.branches = [] := by
        rw [List.get?_eq_none] at hB
        cases hbr : li.branches with
        | nil => rfl
        | cons x xs =>
          rw [hbr] at hB
          simp at hB
      constructor
      · intro hs
        exfalso
        simp only [List.get?_eq_getElem?] at hB
        simp [nssCallPart, hL, hB] at hs
      · rintro ⟨_, h2, _⟩
        exact absurd hBe (h2 li rfl)
    · rcases hC : b.children.get? 1 with _ | ci
      · rw [List.get?_eq_none] at hC
        constructor
        · intro hs
          exfalso
          simp only [List.get?_eq_getElem?] at hB
          have hC' : b.children.get? 1 = none := List.get?_eq_none.mpr hC
          simp only [List.get?_eq_getElem?] at hC'
          simp [nssCallPart, hL, hB, hC'] at hs
        · rintro ⟨_, _, h3⟩
          omega
      · constructor
        · intro _
          refine ⟨hne, ?_, ?_⟩
          · intro li' hli'
            injection hli' with hli''
            subst hli''
            intro he
            rw [he] at hB
            simp at hB
          · obtain ⟨hlt, _⟩ := List.get?_eq_some.mp hC
            omega
        · intro _
          simp only [List.get?_eq_getElem?] at hB hC
          simp [nssCallPart, hL, hB, hC]

end NCSDis
